import Mathlib

/-
Verification of the napalm-ros core against its natural-language specification.

The development shallowly embeds the relevant parts of the source:
  - src/napalm_ros/ssh_client.py : the reference-counted SshClient lifecycle
    (open/close), the guarded operations (exec/run/write_file/read_file), and
    get_fingerprint together with the base64 encoding it uses.
  - src/napalm_ros/models.py : SshHostKeyManager.for_hostname and
    SshHostKey.fetch_host_key over an abstract persisted store.
  - src/napalm_ros/ros.py : ROSDriver.load_replace_candidate, modelled over
    abstract collaborators (config parser/differ, device, filesystem), with an
    explicit trace of device-affecting effects.

Python machine integers are modelled as Int (they are unbounded), byte strings
in the base64 development as List Nat of byte values, and Python truthiness is
made explicit wherever the source relies on it.
-/

namespace NapalmRos

/-! ## SshClient lifecycle (src/napalm_ros/ssh_client.py, lines 20-65)

The state tracks the Python object's `_open_count` (a plain Python int, so it
is an `Int` here: `close` decrements it without any lower bound) together with
observables about the physical paramiko connections:
  - `connOpens`   : how many times `self.client.connect(...)` was executed,
  - `connCloses`  : how many times `self.client.close()` was executed,
  - `leaked`      : connections overwritten by a later `open()` while still
                    live (the source rebinds `self.client` on every `open()`),
  - `connLive`    : whether the currently bound `self.client` is a live
                    connection.
-/

structure SshState where
  openCount : Int
  connOpens : Nat
  connCloses : Nat
  leaked : Nat
  connLive : Bool
deriving DecidableEq

/-- Fresh SshClient: `self.client = None`, `self._open_count = 0` (lines 20-23). -/
def initSsh : SshState :=
  { openCount := 0, connOpens := 0, connCloses := 0, leaked := 0, connLive := false }

/-- The two lifecycle entry points of the handle (`open` = scoped acquire,
`close` = release; `__enter__`/`__exit__` call exactly these). -/
inductive SshOp
  | acquire
  | release
deriving DecidableEq

/-- One lifecycle call, transcribed from `SshClient.open` (lines 42-60) and
`SshClient.close` (lines 62-65).

`open()` increments `_open_count` and then unconditionally builds a new
`paramiko.SSHClient()` and connects it, rebinding `self.client`; if the
previous `self.client` was a live connection it is leaked (nothing closes it).

`close()` decrements `_open_count` and calls `self.client.close()` only when
the decremented count is exactly 0 (`if not self._open_count`); a negative
count is truthy in Python, so nothing happens there. -/
def step (s : SshState) : SshOp → SshState
  | .acquire =>
    { openCount := s.openCount + 1
      connOpens := s.connOpens + 1
      connCloses := s.connCloses
      leaked := s.leaked + (if s.connLive then 1 else 0)
      connLive := true }
  | .release =>
    { openCount := s.openCount - 1
      connOpens := s.connOpens
      connCloses := s.connCloses + (if s.openCount - 1 = 0 then 1 else 0)
      leaked := s.leaked
      connLive := if s.openCount - 1 = 0 then false else s.connLive }

/-- Run a sequence of lifecycle calls from a starting state. -/
def runOps (s : SshState) (ops : List SshOp) : SshState :=
  ops.foldl step s

/-! ## Guarded SshClient operations (ssh_client.py, lines 67-104) -/

/-- The exception classes raised by SshClient operations (lines 137-142). -/
inductive SshErr
  | sshClientNotOpen
  | sshCommandException (msg : String)
deriving DecidableEq

/-- Remote side of an open connection, abstracted: what `exec_command` returns
for a command (stdout text, stderr text, exit status) and what SFTP reads give
for a path. -/
structure Conn where
  execResult : String → String × String × Int
  fileData : String → String

/-- `SshClient._assert_open` (lines 67-69): raises `SshClientNotOpen` when
`not self._open_count`, i.e. exactly when the count equals 0 (any nonzero
Python int, negative included, is truthy). -/
def assert_open (count : Int) : Except SshErr Unit :=
  if count = 0 then .error .sshClientNotOpen else .ok ()

/-- `SshClient.exec` (lines 71-74): assert open, then dispatch the command on
the connection and return (stdout, stderr, exit status). -/
def sshExec (count : Int) (conn : Conn) (command : String) :
    Except SshErr (String × String × Int) :=
  match assert_open count with
  | .error e => .error e
  | .ok _ => .ok (conn.execResult command)

/-- Splitting of captured stdout text into lines at newline characters
(Python `stdout.readlines()`; the terminators are immaterial because each
line is stripped right after). -/
def splitOnNl : List Char → List (List Char)
  | [] => [[]]
  | c :: rest =>
    if c = '\n' then [] :: splitOnNl rest
    else
      match splitOnNl rest with
      | [] => [[c]]
      | g :: gs => (c :: g) :: gs

/-- Python `str.strip()`: drop whitespace from both ends of a line. -/
def trimChars (l : List Char) : List Char :=
  (((l.dropWhile Char.isWhitespace).reverse).dropWhile Char.isWhitespace).reverse

/-- `SshClient.run` (lines 76-84): assert open, call `exec`, return stripped
stdout lines when the exit code is 0 or `raise_exceptions` is off, otherwise
raise `SshCommandException` built from stderr (or stdout when stderr is
empty). -/
def sshRun (count : Int) (conn : Conn) (command : String) (raise_exceptions : Bool) :
    Except SshErr (List (List Char)) :=
  match assert_open count with
  | .error e => .error e
  | .ok _ =>
    match sshExec count conn command with
    | .error e => .error e
    | .ok res =>
      if res.2.2 == 0 || !raise_exceptions then
        .ok ((splitOnNl res.1.toList).map trimChars)
      else
        .error (.sshCommandException
          ("Error executing: " ++ command ++ "\nError: "
            ++ (if res.2.1 != "" then res.2.1 else res.1)))

/-- `SshClient.write_file` (lines 86-94): assert open, then perform the SFTP
write on the connection (the write itself is the dispatched effect). -/
def sshWriteFile (count : Int) (conn : Conn) (path : String) (data : String) :
    Except SshErr Unit :=
  match assert_open count with
  | .error e => .error e
  | .ok _ => .ok ()

/-- `SshClient.read_file` (lines 96-104): assert open, then read the file over
SFTP from the connection. -/
def sshReadFile (count : Int) (conn : Conn) (path : String) : Except SshErr String :=
  match assert_open count with
  | .error e => .error e
  | .ok _ => .ok (conn.fileData path)

/-- A trivial connection used to evaluate the guarded operations concretely. -/
def conn0 : Conn :=
  { execResult := fun _ => ("", "", 0), fileData := fun _ => "" }

/-! ## ConfigDeployer: ROSDriver.load_replace_candidate (src/napalm_ros/ros.py,
lines 503-553)

The method is modelled over its external collaborators, held in a `DeployEnv`:
the RouterOSConfig parser and differ (a `Doc` type with `parse`, `diff`,
`sections`, `text`), the local filesystem read (`Path(filename).read_text()`),
the device's answer to `get_config()` (which may itself raise
`CommandErrorException`, ros.py lines 487-501), the timestamp used for the
generated file name, and the captured streams plus exit status of the single
remote `/import` execution.  Device-affecting steps are recorded in an
explicit `Effect` trace. -/

/-- Errors raised by `load_replace_candidate` and `get_config`. -/
inductive RosError
  | valueError
  | commandError (msg : String)
deriving DecidableEq

/-- Device-affecting steps performed by the deployer, in order:
fetching the running configuration (`self.get_config()`), writing a file over
SFTP (`self.ssh_client.write_file`), and executing a remote command
(`self.ssh_client.exec`). -/
inductive Effect
  | getConfig
  | writeFile (name : String) (data : String)
  | execCmd (cmd : String)
deriving DecidableEq

/-- An argument of Python type `Union[str, RouterOSConfig, None]`. -/
inductive Arg (Doc : Type)
  | absent
  | str (s : String)
  | doc (d : Doc)

/-- Python truthiness of such an argument: `None` and the empty string are
falsy; parsed configuration objects are truthy. -/
def Arg.truthy : Arg Doc → Bool
  | .absent => false
  | .str s => !s.isEmpty
  | .doc _ => true

/-- Python truthiness of the optional `filename` argument. -/
def pyTruthyOpt : Option String → Bool
  | none => false
  | some s => !s.isEmpty

/-- The collaborators and remote responses a single
`load_replace_candidate` run interacts with. `execStderr` and `execExit` are
captured by the source (ros.py lines 542-543) but never consulted when
deciding success. -/
structure DeployEnv (Doc : Type) where
  readTextFile : String → String
  parse : String → Doc
  diff : Doc → Doc → Option Doc → Doc
  sections : Doc → List String
  text : Doc → String
  getConfigResult : Except RosError String
  now : String
  execStdout : String
  execStderr : String
  execExit : Int

/-- Resolution of `current_config` (ros.py lines 510-515): when the argument
is falsy, fetch the running configuration from the router (`get_config`,
which may raise) and parse it; when it is a string, parse it; otherwise use
the object as given. The `.absent` fallback in the truthy branch is
unreachable because `.absent` is falsy. -/
def resolveCurrent (env : DeployEnv Doc) (current_config : Arg Doc) :
    Except RosError Doc × List Effect :=
  if !current_config.truthy then
    match env.getConfigResult with
    | .error e => (.error e, [.getConfig])
    | .ok running => (.ok (env.parse running), [.getConfig])
  else
    match current_config with
    | .str s => (.ok (env.parse s), [])
    | .doc d => (.ok d, [])
    | .absent => (.ok (env.parse ""), [])

/-- The desired configuration document (ros.py lines 507-508 and 521-523):
when `filename` is truthy its contents replace `config`; a string is then
parsed. The `.absent` fallback is unreachable under the ValueError guard of
lines 504-505. -/
def desiredDoc (env : DeployEnv Doc) (filename : Option String) (config : Arg Doc) : Doc :=
  let cfgArg : Arg Doc :=
    match filename with
    | some s => if s.isEmpty then config else Arg.str (env.readTextFile s)
    | none => config
  match cfgArg with
  | .str s => env.parse s
  | .doc d => d
  | .absent => env.parse ""

/-- Resolution of `current_config_verbose` (ros.py lines 517-519): a string is
parsed, an object passed through, `None` stays `None`. -/
def verboseDoc (env : DeployEnv Doc) (current_config_verbose : Arg Doc) : Option Doc :=
  match current_config_verbose with
  | .str s => some (env.parse s)
  | .doc d => some d
  | .absent => none

/-- The generated remote file name (ros.py line 532):
`f"script-{datetime.now().isoformat()}.rsc"`. -/
def remoteFileName (now : String) : String :=
  "script-" ++ now ++ ".rsc"

/-- The script body (ros.py lines 533-537): textual diff, then the
self-removal command for the uploaded file, then the success marker line. -/
def scriptBody (diffText file_name : String) : String :=
  diffText ++ "\n/file remove \"" ++ file_name ++ "\"" ++ "\n:put SUCCESS"

/-- The remote command that executes the uploaded script (ros.py line 542). -/
def importCmd (file_name : String) : String :=
  "/import \"" ++ file_name ++ "\""

/-- Python's `p in l` substring containment on character sequences, used for
`b"SUCCESS" in stdout` (ros.py line 545). -/
def hasSubstr (p : List Char) : List Char → Bool
  | [] => p.isEmpty
  | c :: tail => p.isPrefixOf (c :: tail) || hasSubstr p tail

/-- `ROSDriver.load_replace_candidate` (ros.py lines 503-553), returning the
outcome together with the ordered trace of device-affecting effects:
  1. ValueError when both `filename` and `config` are falsy (lines 504-505);
  2. resolve desired / current / verbose configuration (lines 507-523);
  3. diff; empty `sections` means return with no further effects (526-530);
  4. otherwise write the generated script, execute `/import`, and decide
     success solely by scanning captured stdout for `b"SUCCESS"`; on failure
     raise `CommandErrorException` naming the file, which is left on the
     router (lines 532-553). -/
def load_replace_candidate (env : DeployEnv Doc) (filename : Option String)
    (config current_config current_config_verbose : Arg Doc) :
    Except RosError Unit × List Effect :=
  if !pyTruthyOpt filename && !config.truthy then
    (.error .valueError, [])
  else
    match resolveCurrent env current_config with
    | (.error e, effs) => (.error e, effs)
    | (.ok cur, effs) =>
      let d := env.diff (desiredDoc env filename config) cur
        (verboseDoc env current_config_verbose)
      if (env.sections d).isEmpty then
        (.ok (), effs)
      else
        let file_name := remoteFileName env.now
        let script := scriptBody (env.text d) file_name
        let effs2 := effs ++ [Effect.writeFile file_name script,
          Effect.execCmd (importCmd file_name)]
        if hasSubstr "SUCCESS".toList env.execStdout.toList then
          (.ok (), effs2)
        else
          (.error (.commandError
            ("Error while executing script. File remains on the router in file "
              ++ file_name)), effs2)

/-! ## Host-key store: SshHostKeyManager / SshHostKey (src/napalm_ros/models.py)

The Django model is a persisted record per hostname with a text `host_key`
field (empty string when unset, which is falsy in Python). The persistence
collaborator is modelled as an association list with get-first semantics for
`objects.get(hostname=...)` and replace-first-or-append semantics for
`save()`. The network fetch (`get_fingerprint`) is an oracle that either
returns fingerprint text or fails; a failure propagates out of
`fetch_host_key` before `save()` is reached. The spec's error-taxonomy name
for that propagated network/handshake failure is `HostKeyUnavailable`. -/

/-- Failure of the trust-on-first-use fingerprint fetch (spec taxonomy name
`HostKeyUnavailable`; the source propagates the underlying socket/paramiko
exception, carried here as the reason text). -/
inductive HostKeyError
  | hostKeyUnavailable (reason : String)
deriving DecidableEq

/-- A persisted `SshHostKey` row (models.py lines 21-26): hostname plus the
host-key text field. -/
structure HostKeyRecord where
  hostname : String
  host_key : String
deriving DecidableEq

/-- The persisted host-key table. -/
def Store := List HostKeyRecord

/-- `SshHostKey.objects.get(hostname=...)` (models.py line 11): the stored
record for a hostname, if any. -/
def objects_get (s : Store) (hostname : String) : Option HostKeyRecord :=
  List.find? (fun r => r.hostname == hostname) s

/-- `record.save()`: replace the stored row for this hostname, or insert a
new row. -/
def saveRecord (s : Store) (r : HostKeyRecord) : Store :=
  match s with
  | [] => [r]
  | x :: xs =>
    if x.hostname == r.hostname then r :: xs else x :: saveRecord xs r

/-- `SshHostKeyManager.for_hostname` (models.py lines 8-18) combined with
`SshHostKey.fetch_host_key` (lines 31-34), over a fetch oracle standing for
`get_fingerprint(hostname)`. Returns the outcome, the resulting store, and
whether a network fetch was performed:
  - look up the record, creating an unsaved one (empty `host_key`) on miss;
  - when the key material is falsy (empty), fetch; on success set the field
    and save (commit defaults to True); on failure propagate without saving;
  - when key material is present, return the record unchanged, no fetch. -/
def for_hostname (fetch : String → Except HostKeyError String) (s : Store)
    (hostname : String) : Except HostKeyError HostKeyRecord × Store × Bool :=
  let rec0 := (objects_get s hostname).getD { hostname := hostname, host_key := "" }
  if rec0.host_key.isEmpty then
    match fetch hostname with
    | .error e => (.error e, s, true)
    | .ok fingerprint =>
      let r := { rec0 with host_key := fingerprint }
      (.ok r, saveRecord s r, true)
  else
    (.ok rec0, s, false)

/-! ## KeyFetcher text encoding: get_fingerprint and SshClient.open parsing
(src/napalm_ros/ssh_client.py, lines 42-49 and 107-130)

`get_fingerprint` builds `f"{key.get_name()} {base64.encodebytes(key.asbytes()).strip()}"`.
`base64.encodebytes` is MIME base64: it encodes the input in 57-byte chunks
and terminates each resulting 76-character group with a newline; `.strip()`
removes only leading/trailing ASCII whitespace, so embedded newlines survive
for keys longer than 57 bytes. `SshClient.open` parses the stored text with
`host_key.split(" ", 1)` and `base64.b64decode(data)`, and `b64decode`
discards bytes outside the base64 alphabet (newlines included) before
decoding. Byte strings are `List Nat` of byte values here. -/

/-- The base64 alphabet, sextet value to byte value
(`A-Z`, `a-z`, `0-9`, `+`, `/`). -/
def encSextet (n : Nat) : Nat :=
  if n < 26 then 65 + n
  else if n < 52 then 97 + (n - 26)
  else if n < 62 then 48 + (n - 52)
  else if n = 62 then 43
  else 47

/-- The base64 alphabet, byte value to sextet value; 64 for a byte outside
the alphabet. -/
def decSextet (c : Nat) : Nat :=
  if 65 ≤ c ∧ c ≤ 90 then c - 65
  else if 97 ≤ c ∧ c ≤ 122 then 26 + (c - 97)
  else if 48 ≤ c ∧ c ≤ 57 then 52 + (c - 48)
  else if c = 43 then 62
  else if c = 47 then 63
  else 64

/-- Plain base64 encoding of a byte string: 3-byte groups become 4 alphabet
bytes, with `=` (byte 61) padding for a 1- or 2-byte tail. -/
def b64encode : List Nat → List Nat
  | [] => []
  | [a] => [encSextet (a / 4), encSextet (a % 4 * 16), 61, 61]
  | [a, b] => [encSextet (a / 4), encSextet (a % 4 * 16 + b / 16),
      encSextet (b % 16 * 4), 61]
  | a :: b :: c :: rest =>
    encSextet (a / 4) :: encSextet (a % 4 * 16 + b / 16) ::
      encSextet (b % 16 * 4 + c / 64) :: encSextet (c % 64) :: b64encode rest

/-- First decoded byte of a 4-sextet group. -/
def byte1 (c1 c2 : Nat) : Nat := decSextet c1 * 4 + decSextet c2 / 16

/-- Second decoded byte of a 4-sextet group. -/
def byte2 (c2 c3 : Nat) : Nat := decSextet c2 % 16 * 16 + decSextet c3 / 4

/-- Third decoded byte of a 4-sextet group. -/
def byte3 (c3 c4 : Nat) : Nat := decSextet c3 % 4 * 64 + decSextet c4

/-- Base64 decoding of an already-filtered byte string, 4 bytes at a time,
stopping at `=` padding, as `binascii.a2b_base64` does on well-formed data. -/
def b64decodeCore : List Nat → List Nat
  | c1 :: c2 :: c3 :: c4 :: rest =>
    if c3 = 61 then [byte1 c1 c2]
    else if c4 = 61 then [byte1 c1 c2, byte2 c2 c3]
    else byte1 c1 c2 :: byte2 c2 c3 :: byte3 c3 c4 :: b64decodeCore rest
  | _ => []

/-- Whether `b64decode` keeps a byte: alphabet bytes and the `=` padding
byte; everything else (newlines, whitespace, ...) is discarded. -/
def keepB64 (c : Nat) : Bool :=
  decSextet c != 64 || c == 61

/-- `base64.b64decode` with default `validate=False`: discard bytes outside
the alphabet, then decode. -/
def b64decode (l : List Nat) : List Nat :=
  b64decodeCore (l.filter keepB64)

/-- Fuel-driven split of a byte string into successive 57-byte chunks (the
`MAXBINSIZE` loop of `base64.encodebytes`); the fuel is instantiated with the
length of the list. -/
def chunksGo : Nat → List Nat → List (List Nat)
  | _, [] => []
  | 0, _ :: _ => []
  | fuel + 1, x :: xs =>
    ((x :: xs).take 57) :: chunksGo fuel ((x :: xs).drop 57)

/-- `base64.encodebytes`: encode each 57-byte chunk and terminate it with a
newline (byte 10). -/
def encodebytes (l : List Nat) : List Nat :=
  (chunksGo l.length l).flatMap (fun c => b64encode c ++ [10])

/-- ASCII whitespace bytes, as stripped by Python `bytes.strip()`. -/
def isSpaceByte (c : Nat) : Bool :=
  c == 32 || c == 9 || c == 10 || c == 11 || c == 12 || c == 13

/-- Python `bytes.strip()`: drop ASCII whitespace from both ends. -/
def pyStrip (l : List Nat) : List Nat :=
  (((l.dropWhile isSpaceByte).reverse).dropWhile isSpaceByte).reverse

/-- The fingerprint text built by `get_fingerprint` (ssh_client.py lines
128-130) from the server key's algorithm name and raw key bytes:
`f"{printable_type} {encodebytes(key_bytes).strip()}"`. -/
def get_fingerprint_text (keyType keyBytes : List Nat) : List Nat :=
  keyType ++ 32 :: pyStrip (encodebytes keyBytes)

/-- Python `s.split(" ", 1)` when a space is present: the part before the
first space (byte 32) and everything after it. (With no space present the
source's two-target unpacking would fail; fingerprint text always has one.) -/
def splitFirstSpace : List Nat → List Nat × List Nat
  | [] => ([], [])
  | c :: rest =>
    if c = 32 then ([], rest)
    else ((c :: (splitFirstSpace rest).1), (splitFirstSpace rest).2)

/-- The host-key parsing performed by `SshClient.open` (ssh_client.py lines
45-49): split the stored text at the first space into the algorithm name and
the base64 data, and decode the data (`paramiko` then rebuilds the key object
from exactly these bytes). -/
def parseHostKey (host_key : List Nat) : List Nat × List Nat :=
  ((splitFirstSpace host_key).1, b64decode (splitFirstSpace host_key).2)

/-- The byte string of the algorithm name `"ssh-rsa"`. -/
def sshRsaName : List Nat := [115, 115, 104, 45, 114, 115, 97]

/-! ## Concrete fixtures used to evaluate the model on closed inputs -/

/-- A deployment environment whose diff is empty (desired equals current). -/
def envNoop : DeployEnv String :=
  { readTextFile := fun _ => ""
    parse := id
    diff := fun d _ _ => d
    sections := fun _ => []
    text := id
    getConfigResult := .ok "run"
    now := "2026-10-12T00:00:00"
    execStdout := ""
    execStderr := ""
    execExit := 0 }

/-- A deployment environment with a nonempty diff whose script execution
prints the success marker. -/
def envApplied : DeployEnv String :=
  { readTextFile := fun _ => ""
    parse := id
    diff := fun d _ _ => d
    sections := fun _ => ["ip address"]
    text := id
    getConfigResult := .ok "run"
    now := "2026-10-12T00:00:01"
    execStdout := "SUCCESS\n"
    execStderr := ""
    execExit := 0 }

/-- A deployment environment with a nonempty diff whose script execution
output lacks the success marker. -/
def envFailed : DeployEnv String :=
  { readTextFile := fun _ => "/ip address add"
    parse := id
    diff := fun d _ _ => d
    sections := fun _ => ["ip address"]
    text := id
    getConfigResult := .ok "run"
    now := "2026-10-12T00:00:02"
    execStdout := "interrupted"
    execStderr := ""
    execExit := 0 }

/-- A fetch oracle that succeeds with a fixed fingerprint. -/
def fetchOk : String → Except HostKeyError String :=
  fun _ => .ok "ssh-rsa AAEC"

/-- A fetch oracle that fails (unreachable host). -/
def fetchFail : String → Except HostKeyError String :=
  fun _ => .error (.hostKeyUnavailable "connection timed out")

/-! ## Claims about the SshClient lifecycle (C1, C7, C8) -/

/-- Claim C1, evaluated on the code at the failing input: a properly balanced
depth-2 nested acquire/release sequence on one fresh handle. The claim (and
spec §8) says the physical connection opens exactly once, at the first
acquire; the code's `open()` connects unconditionally on every call, so this
run performs 2 physical connects, leaks the first connection (it is
overwritten, never closed), and issues only 1 close. -/
theorem C1_nested_acquire_code_evaluation :
    runOps initSsh [SshOp.acquire, SshOp.acquire, SshOp.release, SshOp.release] =
      { openCount := 0, connOpens := 2, connCloses := 1, leaked := 1,
        connLive := false } := by
  decide

/-- Claim C7, counterexample: releasing a fresh handle whose `openCount` is 0
is not signalled loudly; `close()` simply decrements the counter to -1 and
returns normally (the decremented count -1 is truthy, so not even
`self.client.close()` is reached). The step function is total: no error of
any kind is raised on this path. -/
theorem C7_counterexample_silent_release :
    step initSsh SshOp.release =
      { openCount := -1, connOpens := 0, connCloses := 0, leaked := 0,
        connLive := false } := by
  decide

/-- Claim C7 as amended: calling `close()` in any state with `openCount = 0`
silently decrements the counter to -1 and returns normally, closing nothing
and raising nothing, instead of signalling a programming error. -/
theorem C7_release_at_zero_is_silent (s : SshState) (h : s.openCount = 0) :
    step s SshOp.release = { s with openCount := -1 } := by
  cases s with
  | mk oc co cc lk lv =>
    simp only [step]
    simp only at h
    subst h
    norm_num

/-- Witness for C7: the amended behaviour at the fresh handle. -/
theorem C7_release_at_zero_is_silent_witness :
    step initSsh SshOp.release = { initSsh with openCount := -1 } :=
  C7_release_at_zero_is_silent initSsh rfl

/-- Claim C8, counterexample: `openCount = -1` is not strictly positive and is
reachable from the fresh handle by a single stray `close()`, yet every one of
exec, run, write_file and read_file passes `_assert_open` (Python's
`if not self._open_count` fires only at exactly 0) and dispatches to the
connection instead of failing with `SshClientNotOpen`. -/
theorem C8_counterexample_negative_count_dispatches :
    (step initSsh SshOp.release).openCount = -1 ∧
    sshExec (-1) conn0 "/export" = .ok ("", "", 0) ∧
    sshRun (-1) conn0 "/export" true = .ok [[]] ∧
    sshWriteFile (-1) conn0 "flash/a.rsc" "data" = .ok () ∧
    sshReadFile (-1) conn0 "flash/a.rsc" = .ok "" :=
  ⟨rfl, rfl, rfl, rfl, rfl⟩

/-- Claim C8 as amended: exec, run, write_file and read_file fail with
`SshClientNotOpen` exactly when `openCount = 0`; for every nonzero count
(negative counts, reachable by unbalanced release, included) they dispatch
to the connection. -/
theorem C8_guard_fires_exactly_at_zero (count : Int) (conn : Conn)
    (command path data : String) (raise_exceptions : Bool) :
    (sshExec count conn command = .error .sshClientNotOpen ↔ count = 0) ∧
    (sshRun count conn command raise_exceptions = .error .sshClientNotOpen ↔ count = 0) ∧
    (sshWriteFile count conn path data = .error .sshClientNotOpen ↔ count = 0) ∧
    (sshReadFile count conn path = .error .sshClientNotOpen ↔ count = 0) ∧
    (¬ count = 0 → sshExec count conn command = .ok (conn.execResult command)) ∧
    (¬ count = 0 → sshWriteFile count conn path data = .ok ()) ∧
    (¬ count = 0 → sshReadFile count conn path = .ok (conn.fileData path)) := by
  by_cases h : count = 0
  · simp [sshExec, sshRun, sshWriteFile, sshReadFile, assert_open, h]
  · refine ⟨?_, ?_, ?_, ?_, fun _ => ?_, fun _ => ?_, fun _ => ?_⟩ <;>
      simp [sshExec, sshRun, sshWriteFile, sshReadFile, assert_open, h]
    split <;> simp

/-- Witness for C8 as amended: at count 1 the guard passes and exec
dispatches; at count 0 it fails with `SshClientNotOpen`. -/
theorem C8_guard_fires_exactly_at_zero_witness :
    sshExec 1 conn0 "/export" = .ok ("", "", 0) ∧
    sshExec 0 conn0 "/export" = .error .sshClientNotOpen :=
  ⟨(C8_guard_fires_exactly_at_zero 1 conn0 "/export" "p" "d" true).2.2.2.2.1
      (by decide),
   (C8_guard_fires_exactly_at_zero 0 conn0 "/export" "p" "d" true).1.mpr rfl⟩

/-! ## Claims about load_replace_candidate (C2, C3, C4, C10) -/

/-- Every effect emitted while resolving the current configuration is the
`getConfig` fetch: resolution never writes files or runs deployment
commands. -/
theorem resolveCurrent_effects {Doc : Type} (env : DeployEnv Doc) (cc : Arg Doc) :
    ∀ e ∈ (resolveCurrent env cc).2, e = Effect.getConfig := by
  unfold resolveCurrent
  split
  · cases env.getConfigResult <;> intro e he <;> simpa using he
  · cases cc <;> intro e he <;> simp at he

/-- Claim C2: once a run reaches script execution (the computed diff has a
nonempty section list), `load_replace_candidate` succeeds exactly when the
literal marker `SUCCESS` occurs in the captured stdout of the remote script
execution, and the captured remote exit status has no influence on the
outcome (the whole result is unchanged under any exit status). -/
theorem C2_success_iff_marker {Doc : Type} (env : DeployEnv Doc)
    (filename : Option String)
    (config current_config current_config_verbose : Arg Doc)
    (cur : Doc) (effs : List Effect)
    (hargs : (!pyTruthyOpt filename && !config.truthy) = false)
    (hcur : resolveCurrent env current_config = (.ok cur, effs))
    (hdiff : (env.sections (env.diff (desiredDoc env filename config) cur
      (verboseDoc env current_config_verbose))).isEmpty = false) :
    ((load_replace_candidate env filename config current_config
        current_config_verbose).1 = .ok ()
      ↔ hasSubstr "SUCCESS".toList env.execStdout.toList = true) ∧
    ∀ exitCode : Int,
      load_replace_candidate { env with execExit := exitCode } filename config
          current_config current_config_verbose
        = load_replace_candidate env filename config current_config
            current_config_verbose := by
  constructor
  · unfold load_replace_candidate
    rw [hargs, hcur]
    simp [hdiff]
    split <;> rename_i hcond <;> simp [hcond]
  · intro exitCode
    cases env
    rfl

/-- Witness for C2: a concrete deployment whose script output prints the
marker succeeds, and its outcome is the same under any exit status. -/
theorem C2_success_iff_marker_witness :
    ((load_replace_candidate envApplied none (Arg.str "new") (Arg.str "old")
        Arg.absent).1 = .ok ()
      ↔ hasSubstr "SUCCESS".toList envApplied.execStdout.toList = true) ∧
    ∀ exitCode : Int,
      load_replace_candidate { envApplied with execExit := exitCode } none
          (Arg.str "new") (Arg.str "old") Arg.absent
        = load_replace_candidate envApplied none (Arg.str "new") (Arg.str "old")
            Arg.absent :=
  C2_success_iff_marker envApplied none (Arg.str "new") (Arg.str "old")
    Arg.absent "old" [] rfl rfl rfl

/-- Claim C3: when the executed script's captured stdout lacks the marker,
the run raises `CommandErrorException` whose message names the uploaded
remote file, and the deployer issues no removal of that file: its effect
trace consists of the optional configuration fetch, the single script upload,
and the single `/import` execution, so the only command ever executed is
the import one (the removal instruction exists only inside the script body,
which failed). -/
theorem C3_failure_names_file_and_leaves_it {Doc : Type} (env : DeployEnv Doc)
    (filename : Option String)
    (config current_config current_config_verbose : Arg Doc)
    (cur : Doc) (effs : List Effect)
    (hargs : (!pyTruthyOpt filename && !config.truthy) = false)
    (hcur : resolveCurrent env current_config = (.ok cur, effs))
    (hdiff : (env.sections (env.diff (desiredDoc env filename config) cur
      (verboseDoc env current_config_verbose))).isEmpty = false)
    (hfail : hasSubstr "SUCCESS".toList env.execStdout.toList = false) :
    load_replace_candidate env filename config current_config
        current_config_verbose
      = (.error (.commandError
          ("Error while executing script. File remains on the router in file "
            ++ remoteFileName env.now)),
         effs ++ [Effect.writeFile (remoteFileName env.now)
            (scriptBody (env.text (env.diff (desiredDoc env filename config) cur
              (verboseDoc env current_config_verbose))) (remoteFileName env.now)),
          Effect.execCmd (importCmd (remoteFileName env.now))]) ∧
    ∀ c, Effect.execCmd c ∈ (load_replace_candidate env filename config
        current_config current_config_verbose).2 →
      c = importCmd (remoteFileName env.now) := by
  have hmain : load_replace_candidate env filename config current_config
      current_config_verbose
      = (.error (.commandError
          ("Error while executing script. File remains on the router in file "
            ++ remoteFileName env.now)),
         effs ++ [Effect.writeFile (remoteFileName env.now)
            (scriptBody (env.text (env.diff (desiredDoc env filename config) cur
              (verboseDoc env current_config_verbose))) (remoteFileName env.now)),
          Effect.execCmd (importCmd (remoteFileName env.now))]) := by
    unfold load_replace_candidate
    rw [hargs, hcur]
    simp at hfail
    simp [hdiff, hfail]
  refine ⟨hmain, ?_⟩
  intro c hc
  rw [hmain] at hc
  rcases List.mem_append.mp hc with hin | hin
  · have := resolveCurrent_effects env current_config
    rw [hcur] at this
    exact absurd (this _ hin) (by simp)
  · simp at hin
    exact hin

/-- Witness for C3: a concrete failed deployment returns the error naming the
generated file and its trace holds no removal command. -/
theorem C3_failure_names_file_and_leaves_it_witness :
    load_replace_candidate envFailed none (Arg.str "new") (Arg.str "old")
        Arg.absent
      = (.error (.commandError
          ("Error while executing script. File remains on the router in file "
            ++ remoteFileName envFailed.now)),
         [Effect.writeFile (remoteFileName envFailed.now)
            (scriptBody (envFailed.text (envFailed.diff
              (desiredDoc envFailed none (Arg.str "new")) "old"
              (verboseDoc envFailed Arg.absent))) (remoteFileName envFailed.now)),
          Effect.execCmd (importCmd (remoteFileName envFailed.now))]) ∧
    ∀ c, Effect.execCmd c ∈ (load_replace_candidate envFailed none
        (Arg.str "new") (Arg.str "old") Arg.absent).2 →
      c = importCmd (remoteFileName envFailed.now) :=
  C3_failure_names_file_and_leaves_it envFailed none (Arg.str "new")
    (Arg.str "old") Arg.absent "old" [] rfl rfl rfl rfl

/-- Claim C4: when the computed diff between the desired and current
configuration has no sections, `load_replace_candidate` returns normally and
its effect trace contains at most the fetch of the running configuration: no
file name is used, no file is written, no command is executed. -/
theorem C4_empty_diff_is_noop {Doc : Type} (env : DeployEnv Doc)
    (filename : Option String)
    (config current_config current_config_verbose : Arg Doc)
    (cur : Doc) (effs : List Effect)
    (hargs : (!pyTruthyOpt filename && !config.truthy) = false)
    (hcur : resolveCurrent env current_config = (.ok cur, effs))
    (hdiff : (env.sections (env.diff (desiredDoc env filename config) cur
      (verboseDoc env current_config_verbose))).isEmpty = true) :
    load_replace_candidate env filename config current_config
        current_config_verbose = (.ok (), effs) ∧
    ∀ e ∈ effs, e = Effect.getConfig := by
  constructor
  · unfold load_replace_candidate
    rw [hargs, hcur]
    simp [hdiff]
  · intro e he
    have := resolveCurrent_effects env current_config
    rw [hcur] at this
    exact this e he

/-- Witness for C4: a concrete no-op deployment with the current
configuration supplied inline performs no effect at all. -/
theorem C4_empty_diff_is_noop_witness :
    load_replace_candidate envNoop none (Arg.str "run") (Arg.str "run")
        Arg.absent = (.ok (), []) ∧
    ∀ e ∈ ([] : List Effect), e = Effect.getConfig :=
  C4_empty_diff_is_noop envNoop none (Arg.str "run") (Arg.str "run")
    Arg.absent "run" [] rfl rfl rfl

/-- Claim C10: when `load_replace_candidate` is given a (truthy) filename,
the desired configuration is read from that file and the inline `config`
argument is ignored (the whole run is unchanged under any `config`); when
neither a truthy filename nor a truthy config is given, the call fails with
`ValueError` and its effect trace is empty (no device interaction). -/
theorem C10_filename_precedence_and_valueerror {Doc : Type} (env : DeployEnv Doc)
    (s : String) (hs : s.isEmpty = false)
    (config config2 current_config current_config_verbose : Arg Doc) :
    desiredDoc env (some s) config = env.parse (env.readTextFile s) ∧
    load_replace_candidate env (some s) config current_config
        current_config_verbose
      = load_replace_candidate env (some s) config2 current_config
          current_config_verbose ∧
    ∀ (filename : Option String) (cfg : Arg Doc),
      pyTruthyOpt filename = false → cfg.truthy = false →
      load_replace_candidate env filename cfg current_config
          current_config_verbose = (.error RosError.valueError, []) := by
  refine ⟨?_, ?_, ?_⟩
  · simp [desiredDoc, hs]
  · simp [load_replace_candidate, desiredDoc, hs, pyTruthyOpt]
  · intro filename cfg h1 h2
    simp [load_replace_candidate, h1, h2]

/-- Witness for C10: with a concrete file name the desired document is the
parsed file contents for any inline config, and omitting both inputs yields
`ValueError` with an empty trace. -/
theorem C10_filename_precedence_and_valueerror_witness :
    desiredDoc envNoop (some "cand.rsc") (Arg.str "inline")
      = envNoop.parse (envNoop.readTextFile "cand.rsc") ∧
    load_replace_candidate envNoop (some "cand.rsc") (Arg.str "inline")
        (Arg.str "run") Arg.absent
      = load_replace_candidate envNoop (some "cand.rsc") Arg.absent
          (Arg.str "run") Arg.absent ∧
    ∀ (filename : Option String) (cfg : Arg String),
      pyTruthyOpt filename = false → cfg.truthy = false →
      load_replace_candidate envNoop filename cfg (Arg.str "run") Arg.absent
        = (.error RosError.valueError, []) :=
  C10_filename_precedence_and_valueerror envNoop "cand.rsc" rfl
    (Arg.str "inline") Arg.absent (Arg.str "run") Arg.absent

/-! ## Claims about the host-key store (C5, C6) -/

/-- A record found by `objects.get(hostname=h)` carries that hostname. -/
theorem objects_get_hostname (s : Store) (h : String) (r : HostKeyRecord)
    (hget : objects_get s h = some r) : r.hostname = h := by
  have := List.find?_some hget
  simpa using this

/-- After `save`, looking the record's hostname up returns exactly the saved
record. -/
theorem objects_get_save (s : Store) (r : HostKeyRecord) :
    objects_get (saveRecord s r) r.hostname = some r := by
  induction s with
  | nil => simp [saveRecord, objects_get]
  | cons x xs ih =>
    unfold saveRecord
    by_cases hx : (x.hostname == r.hostname) = true
    · simp [objects_get, hx]
    · simp only [hx, Bool.false_eq_true, if_false]
      simpa [objects_get, List.find?, hx] using ih

/-- Claim C5: for a hostname whose stored key material is absent (no record,
or a record with an empty key field), `for_hostname` fetches once, persists
the fetched fingerprint, and returns it; calling again returns the very same
record from the store with no further fetch; and in general a network fetch
is performed exactly when the stored key material is absent. The fetched
fingerprint is nonempty (it always contains the space separating algorithm
name and base64 data). -/
theorem C5_tofu_idempotent (fetch : String → Except HostKeyError String)
    (s : Store) (hostname fp : String)
    (hfetch : fetch hostname = .ok fp) (hfp : fp.isEmpty = false)
    (hmiss : ((objects_get s hostname).getD
      { hostname := hostname, host_key := "" }).host_key.isEmpty = true) :
    ∃ r1 s1,
      for_hostname fetch s hostname = (.ok r1, s1, true) ∧
      r1.host_key = fp ∧
      for_hostname fetch s1 hostname = (.ok r1, s1, false) ∧
      ∀ (s2 : Store) (h2 : String),
        (for_hostname fetch s2 h2).2.2 = true ↔
        ((objects_get s2 h2).getD
          { hostname := h2, host_key := "" }).host_key.isEmpty = true := by
  have hname : ((objects_get s hostname).getD
      { hostname := hostname, host_key := "" }).hostname = hostname := by
    cases hget : objects_get s hostname with
    | none => simp
    | some r => simpa using objects_get_hostname s hostname r hget
  refine ⟨{ hostname := hostname, host_key := fp },
    saveRecord s { hostname := hostname, host_key := fp }, ?_, rfl, ?_, ?_⟩
  · unfold for_hostname
    simp [hmiss, hfetch, hname]
  · unfold for_hostname
    have hsave := objects_get_save s { hostname := hostname, host_key := fp }
    simp [hsave, hfp]
  · intro s2 h2
    unfold for_hostname
    by_cases hk : ((objects_get s2 h2).getD
        { hostname := h2, host_key := "" }).host_key.isEmpty = true
    · cases hf2 : fetch h2 <;> simp [hk, hf2]
    · simp at hk
      simp [hk]

/-- Witness for C5: the empty store and a fixed successful oracle. -/
theorem C5_tofu_idempotent_witness :
    ∃ r1 s1,
      for_hostname fetchOk [] "router1" = (.ok r1, s1, true) ∧
      r1.host_key = "ssh-rsa AAEC" ∧
      for_hostname fetchOk s1 "router1" = (.ok r1, s1, false) ∧
      ∀ (s2 : Store) (h2 : String),
        (for_hostname fetchOk s2 h2).2.2 = true ↔
        ((objects_get s2 h2).getD
          { hostname := h2, host_key := "" }).host_key.isEmpty = true :=
  C5_tofu_idempotent fetchOk [] "router1" "ssh-rsa AAEC" rfl rfl rfl

/-- Claim C6: when the trust-on-first-use fetch for a hostname with no
cached key material fails, `for_hostname` fails with the propagated
`HostKeyUnavailable` error and the store is returned unchanged: nothing is
persisted (`save()` is never reached). -/
theorem C6_failed_fetch_persists_nothing
    (fetch : String → Except HostKeyError String) (s : Store)
    (hostname reason : String)
    (hfetch : fetch hostname = .error (.hostKeyUnavailable reason))
    (hmiss : ((objects_get s hostname).getD
      { hostname := hostname, host_key := "" }).host_key.isEmpty = true) :
    for_hostname fetch s hostname
      = (.error (.hostKeyUnavailable reason), s, true) := by
  unfold for_hostname
  simp [hmiss, hfetch]

/-- Witness for C6: the failing oracle on the empty store. -/
theorem C6_failed_fetch_persists_nothing_witness :
    for_hostname fetchFail [] "router1"
      = (.error (.hostKeyUnavailable "connection timed out"), [], true) :=
  C6_failed_fetch_persists_nothing fetchFail [] "router1"
    "connection timed out" rfl rfl

/-! ## Base64 lemmas for the fingerprint round-trip (C9) -/

/-- Decoding inverts encoding on the alphabet. -/
theorem decSextet_encSextet (n : Nat) (h : n < 64) : decSextet (encSextet n) = n := by
  unfold encSextet decSextet
  split_ifs <;> omega

/-- No alphabet byte is the padding byte `=`. -/
theorem encSextet_ne_61 (n : Nat) : encSextet n ≠ 61 := by
  unfold encSextet
  split_ifs <;> omega

/-- Alphabet bytes survive the `b64decode` filter. -/
theorem keepB64_encSextet (n : Nat) (h : n < 64) : keepB64 (encSextet n) = true := by
  simp [keepB64, decSextet_encSextet n h]
  exact Or.inl (by omega)

/-- Every byte of an encoded string survives the `b64decode` filter. -/
theorem mem_b64encode_keep : ∀ l : List Nat, (∀ x ∈ l, x < 256) →
    ∀ y ∈ b64encode l, keepB64 y = true
  | [], _, y, hy => by simp [b64encode] at hy
  | [a], h, y, hy => by
    have ha : a < 256 := h a (by simp)
    simp [b64encode] at hy
    rcases hy with rfl | rfl | rfl
    · exact keepB64_encSextet _ (by omega)
    · exact keepB64_encSextet _ (by omega)
    · decide
  | [a, b], h, y, hy => by
    have ha : a < 256 := h a (by simp)
    have hb : b < 256 := h b (by simp)
    simp [b64encode] at hy
    rcases hy with rfl | rfl | rfl | rfl
    · exact keepB64_encSextet _ (by omega)
    · exact keepB64_encSextet _ (by omega)
    · exact keepB64_encSextet _ (by omega)
    · decide
  | a :: b :: c :: rest, h, y, hy => by
    have ha : a < 256 := h a (by simp)
    have hb : b < 256 := h b (by simp)
    have hc : c < 256 := h c (by simp)
    simp [b64encode] at hy
    rcases hy with rfl | rfl | rfl | rfl | hy
    · exact keepB64_encSextet _ (by omega)
    · exact keepB64_encSextet _ (by omega)
    · exact keepB64_encSextet _ (by omega)
    · exact keepB64_encSextet _ (by omega)
    · exact mem_b64encode_keep rest (fun x hx => h x (by simp [hx])) y hy

/-- The `b64decode` filter leaves an encoded string unchanged. -/
theorem filter_keepB64_encode (l : List Nat) (h : ∀ x ∈ l, x < 256) :
    (b64encode l).filter keepB64 = b64encode l :=
  List.filter_eq_self.mpr (mem_b64encode_keep l h)

/-- Round trip of plain base64 on whole byte strings, padding included. -/
theorem b64decodeCore_encode : ∀ l : List Nat, (∀ x ∈ l, x < 256) →
    b64decodeCore (b64encode l) = l
  | [], _ => rfl
  | [a], h => by
    have ha : a < 256 := h a (by simp)
    simp [b64encode, b64decodeCore, byte1,
      decSextet_encSextet _ (by omega : a / 4 < 64),
      decSextet_encSextet _ (by omega : a % 4 * 16 < 64)]
    omega
  | [a, b], h => by
    have ha : a < 256 := h a (by simp)
    have hb : b < 256 := h b (by simp)
    simp [b64encode, b64decodeCore, encSextet_ne_61, byte1, byte2,
      decSextet_encSextet _ (by omega : a / 4 < 64),
      decSextet_encSextet _ (by omega : a % 4 * 16 + b / 16 < 64),
      decSextet_encSextet _ (by omega : b % 16 * 4 < 64)]
    omega
  | a :: b :: c :: rest, h => by
    have ha : a < 256 := h a (by simp)
    have hb : b < 256 := h b (by simp)
    have hc : c < 256 := h c (by simp)
    have ih := b64decodeCore_encode rest (fun x hx => h x (by simp [hx]))
    simp [b64encode, b64decodeCore, encSextet_ne_61, byte1, byte2, byte3,
      decSextet_encSextet _ (by omega : a / 4 < 64),
      decSextet_encSextet _ (by omega : a % 4 * 16 + b / 16 < 64),
      decSextet_encSextet _ (by omega : b % 16 * 4 + c / 64 < 64),
      decSextet_encSextet _ (by omega : c % 64 < 64), ih]
    omega

/-- Decoding an encoded string of length divisible by 3 (so without padding)
followed by anything decodes the string and continues into the rest. -/
theorem b64decodeCore_encode_append : ∀ (l m : List Nat), (∀ x ∈ l, x < 256) →
    l.length % 3 = 0 → b64decodeCore (b64encode l ++ m) = l ++ b64decodeCore m
  | [], _, _, _ => by simp [b64encode]
  | [a], _, _, hlen => by simp at hlen
  | [a, b], _, _, hlen => by simp at hlen
  | a :: b :: c :: rest, m, h, hlen => by
    have ha : a < 256 := h a (by simp)
    have hb : b < 256 := h b (by simp)
    have hc : c < 256 := h c (by simp)
    have hlen' : rest.length % 3 = 0 := by
      simp only [List.length_cons] at hlen
      omega
    have ih := b64decodeCore_encode_append rest m
      (fun x hx => h x (by simp [hx])) hlen'
    simp [b64encode, b64decodeCore, encSextet_ne_61, byte1, byte2, byte3,
      decSextet_encSextet _ (by omega : a / 4 < 64),
      decSextet_encSextet _ (by omega : a % 4 * 16 + b / 16 < 64),
      decSextet_encSextet _ (by omega : b % 16 * 4 + c / 64 < 64),
      decSextet_encSextet _ (by omega : c % 64 < 64), ih]
    omega

/-- Filtering then decoding the newline-chunked MIME output of
`base64.encodebytes` (driven by fuel covering the input length) recovers the
input bytes. -/
theorem decode_filter_chunksGo (fuel : Nat) : ∀ l : List Nat, l.length ≤ fuel →
    (∀ x ∈ l, x < 256) →
    b64decodeCore (((chunksGo fuel l).flatMap
      (fun c => b64encode c ++ [10])).filter keepB64) = l := by
  induction fuel with
  | zero =>
    intro l hl _
    cases l with
    | nil => rfl
    | cons x xs => simp at hl
  | succ fuel ih =>
    intro l hl hb
    cases l with
    | nil => rfl
    | cons x xs =>
      rw [chunksGo, List.flatMap_cons, List.filter_append, List.filter_append,
        filter_keepB64_encode _ (fun y hy => hb y (List.take_subset 57 (x :: xs) hy))]
      have h10 : List.filter keepB64 [10] = [] := by decide
      rw [h10, List.append_nil]
      by_cases hlen : (x :: xs).length ≤ 57
      · rw [List.drop_eq_nil_of_le hlen]
        simp only [chunksGo, List.flatMap_nil, List.filter_nil, List.append_nil]
        rw [List.take_of_length_le hlen]
        exact b64decodeCore_encode _ hb
      · have htake : ((x :: xs).take 57).length % 3 = 0 := by
          rw [List.length_take]
          omega
        rw [b64decodeCore_encode_append _ _
          (fun y hy => hb y (List.take_subset 57 (x :: xs) hy)) htake]
        have hdrop : ((x :: xs).drop 57).length ≤ fuel := by
          rw [List.length_drop]
          simp only [List.length_cons] at hl ⊢
          omega
        rw [ih _ hdrop (fun y hy => hb y (List.drop_subset 57 (x :: xs) hy))]
        exact List.take_append_drop 57 (x :: xs)

/-- Dropping a prefix of bytes that the filter discards anyway does not
change the filtered string. -/
theorem filter_dropWhile_eq (p q : Nat → Bool) (hp : ∀ c, q c = true → p c = false) :
    ∀ l : List Nat, (l.dropWhile q).filter p = l.filter p := by
  intro l
  induction l with
  | nil => rfl
  | cons x xs ih =>
    by_cases hx : q x = true
    · rw [List.dropWhile_cons, if_pos hx, ih, List.filter_cons, hp x hx]
      simp
    · rw [List.dropWhile_cons, if_neg hx]

/-- Whitespace bytes are discarded by the `b64decode` filter. -/
theorem space_not_keepB64 : ∀ c : Nat, isSpaceByte c = true → keepB64 c = false := by
  intro c hc
  simp [isSpaceByte] at hc
  rcases hc with ((((rfl | rfl) | rfl) | rfl) | rfl) | rfl <;> decide

/-- Python `strip()` does not change what `b64decode` sees. -/
theorem filter_keepB64_pyStrip (l : List Nat) :
    (pyStrip l).filter keepB64 = l.filter keepB64 := by
  unfold pyStrip
  rw [List.filter_reverse, filter_dropWhile_eq _ _ space_not_keepB64,
    List.filter_reverse, List.reverse_reverse,
    filter_dropWhile_eq _ _ space_not_keepB64]

/-- Splitting at the first space after a space-free prefix. -/
theorem splitFirstSpace_append : ∀ (alg rest : List Nat), (32 : Nat) ∉ alg →
    splitFirstSpace (alg ++ 32 :: rest) = (alg, rest)
  | [], rest, _ => by simp [splitFirstSpace]
  | x :: xs, rest, h => by
    have hx : x ≠ 32 := fun e => h (by simp [e])
    have ih := splitFirstSpace_append xs rest (fun hm => h (by simp [hm]))
    simp [splitFirstSpace, hx, ih]

/-! ## Claim C9: fingerprint encoding and round-trip -/

/-- Claim C9, counterexample: for a 58-byte server key the text built by
`get_fingerprint` is not a single line: `base64.encodebytes` terminates every
76-character group with a newline, and `strip()` removes only the trailing
one, so byte 10 remains embedded in the returned text. The claimed
single-line form `"<algorithm-name> <base64(key-bytes)>"` is therefore not
what the code produces. -/
theorem C9_counterexample_embedded_newline :
    (10 : Nat) ∈ get_fingerprint_text sshRsaName (List.replicate 58 0) := by
  decide

/-- Claim C9 as amended: `get_fingerprint` returns the text
`"<algorithm-name> <stripped MIME base64 of the key bytes>"`, which embeds
newlines when the key exceeds 57 bytes; the text still round-trips through
the parsing done by `SshClient.open` (split at the first space,
`base64.b64decode` of the remainder, which discards bytes outside the base64
alphabet), recovering exactly the original algorithm name and key bytes. -/
theorem C9_fingerprint_roundtrip (alg data : List Nat)
    (halg : (32 : Nat) ∉ alg) (hdata : ∀ x ∈ data, x < 256) :
    parseHostKey (get_fingerprint_text alg data) = (alg, data) := by
  unfold parseHostKey get_fingerprint_text
  rw [splitFirstSpace_append alg _ halg]
  unfold b64decode
  rw [filter_keepB64_pyStrip]
  unfold encodebytes
  rw [decode_filter_chunksGo data.length data (Nat.le_refl _) hdata]

/-- Witness for C9: the round-trip at a concrete 3-byte key under the
`ssh-rsa` algorithm name. -/
theorem C9_fingerprint_roundtrip_witness :
    parseHostKey (get_fingerprint_text sshRsaName [0, 1, 2])
      = (sshRsaName, [0, 1, 2]) :=
  C9_fingerprint_roundtrip sshRsaName [0, 1, 2] (by decide) (by decide)

end NapalmRos
